import Mathlib

/-!
Shallow embedding of `src/ExpenseClassifierApp.py` (class `ExpenseClassifierApp`):
the expense categorization-and-advice pipeline.

Modelling conventions:
* A pandas cell in the `amount` column is `AmountCell`: genuinely missing
  (`NaN`/`None`), a numeric value (modelled as `ℚ`), or a non-numeric token
  such as the string "abc" (which pandas keeps as a string in an object
  column, so `pd.notnull` is `true` on it).
* The generative model (`self.model.generate_content`) is a deterministic
  environment parameter `Service : String → Except String String`:
  `.ok text` is a successful response (its `.text`), `.error e` is a raised
  exception rendered by Python as the message `e`.
* Each embedded operation also returns the list of prompts it sent, in
  order, so that claims about the number of outbound service calls are
  statable.
-/

namespace ExpenseClassifier

/-- A value found in the `amount` column of the (edited) dataframe. -/
inductive AmountCell where
  | missing : AmountCell
  | num : ℚ → AmountCell
  | token : String → AmountCell
deriving DecidableEq, Repr

/-- A transaction row of the normalized table (columns `date`, `description`,
`amount` after the lower-casing in `categorize_expenses`). `none` models a
missing key / null cell. -/
structure Row where
  date : Option String
  description : Option String
  amount : AmountCell
deriving DecidableEq, Repr

/-- Embeds the test `pd.notnull(row["amount"])` (line 93): false only for a genuinely
missing value; a non-numeric token is NOT null. -/
def notnull : AmountCell → Bool
  | .missing => false
  | .num _ => true
  | .token _ => true

/-- Embeds `pd.to_numeric(x, errors=coerce)` on one cell: numeric values survive,
everything else coerces to `NaN` (`none`). -/
def coerceAmount : AmountCell → Option ℚ
  | .num q => some q
  | .token _ => none
  | .missing => none

/-- The contribution of a cell to a pandas sum (`sum` skips `NaN`,
so a coerced-away value contributes `0`). -/
def amountOrZero (a : AmountCell) : ℚ := (coerceAmount a).getD 0

/-- The rendering of the raw amount cell inside the f-string prompt. -/
def amountRepr : AmountCell → String
  | .num q => toString q
  | .token s => s
  | .missing => "nan"

/-- Model of Python str.strip(): drop whitespace from both ends of the
string (executable over the character list). -/
def pyStrip (s : String) : String :=
  ⟨((s.data.dropWhile Char.isWhitespace).reverse.dropWhile Char.isWhitespace).reverse⟩

/-- Model of Python str.lower(): lower-case every character. -/
def pyLower (s : String) : String :=
  ⟨s.data.map Char.toLower⟩

/-- The external generative model: one prompt in, either a text response or
a raised exception (rendered as its message). -/
abbrev Service := String → Except String String

/-- The classification prompt built at line 94:
an f-string naming the description (default empty string when the key is
absent) and the amount, each wrapped in single quotes. -/
def rowPrompt (r : Row) : String :=
  "Categorize the following expense: Description: \x27" ++ r.description.getD ""
    ++ "\x27, Amount: \x27" ++ amountRepr r.amount ++ "\x27"

/-- The per-row body of the loop in `categorize_expenses` (lines 93-103):
returns the category assigned to the row together with the list of prompts
sent to the service for this row. -/
def categorizeRow (svc : Service) (r : Row) : String × List String :=
  if notnull r.amount then
    match svc (rowPrompt r) with
    | .ok resp => (pyStrip resp, [rowPrompt r])
    | .error e => ("Error: " ++ e, [rowPrompt r])
  else
    ("Uncategorized", [])

/-- One row of the categorized table: the original row plus the `category`
column appended at line 105. -/
structure CatRow where
  row : Row
  category : String
deriving DecidableEq, Repr

/-- Embeds `categorize_expenses` (lines 86-106): one category per input row, in
input row order. -/
def categorize_expenses (svc : Service) (rows : List Row) : List CatRow :=
  rows.map (fun r => ⟨r, (categorizeRow svc r).1⟩)

/-- All prompts sent to the classification service by one run of
`categorize_expenses`, in row order. -/
def classification_prompts (svc : Service) (rows : List Row) : List String :=
  (rows.map (fun r => (categorizeRow svc r).2)).flatten

/-- One-row version of the in-place coercion
`pd.to_numeric(data["amount"], errors=coerce)` at line 110. -/
def coerceRow (r : Row) : Row :=
  { r with amount := match coerceAmount r.amount with
                     | some q => .num q
                     | none => .missing }

/-- The in-place coercion of the whole `amount` column (line 110): the
table `display_graphs` leaves behind. -/
def coerce_amounts (t : List CatRow) : List CatRow :=
  t.map (fun c => { c with row := coerceRow c.row })

/-- The group keys of `data.groupby("category")`: the distinct category
strings occurring in the table, each exactly once. -/
def groupKeys (t : List CatRow) : List String :=
  (t.map CatRow.category).dedup

/-- The `amount` sum of one group of `data.groupby("category").sum()`:
the sum of the (coerced, `NaN`-skipped) amounts of exactly the rows whose
category equals the key. -/
def groupSum (t : List CatRow) (k : String) : ℚ :=
  ((t.filter (fun c => c.category = k)).map (fun c => amountOrZero c.row.amount)).sum

/-- The aggregated summary `data.groupby("category").sum()` restricted to
the `amount` column: one `(category, total)` pair per distinct category. -/
def aggregate (t : List CatRow) : List (String × ℚ) :=
  (groupKeys t).map (fun k => (k, groupSum t k))

/-- Embeds `display_graphs` (lines 108-136), stripped of the plotting glue: it
coerces the `amount` column of the table it is handed IN PLACE (line 110)
and charts the grouped sums. Returns the mutated table and the summary the
charts are drawn from. -/
def display_graphs (t : List CatRow) : List CatRow × List (String × ℚ) :=
  (coerce_amounts t, aggregate (coerce_amounts t))

/-- Embeds `pd.to_numeric(data["amount"], errors=coerce).sum()` (line 144). -/
def total_expenditure (t : List CatRow) : ℚ :=
  (t.map (fun c => amountOrZero c.row.amount)).sum

/-- Python `f"{x:.2f}"` on the embedded rationals: fixed two-decimal
rendering (half rounded up). -/
def format2 (q : ℚ) : String :=
  let n : Int := ⌊q * 100 + 1 / 2⌋
  let sign := if n < 0 then "-" else ""
  let m := n.natAbs
  sign ++ toString (m / 100) ++ "." ++ (if m % 100 < 10 then "0" else "") ++ toString (m % 100)

/-- The Python `dict` rendering of `expense_breakdown` (line 145) embedded
in the advice prompt at line 151. -/
def dictRepr (l : List (String × ℚ)) : String :=
  "\x7b" ++ String.intercalate ", "
      (l.map (fun kv => "\x27" ++ kv.1 ++ "\x27: " ++ toString kv.2)) ++ "\x7d"

/-- The advice prompt assembled at lines 147-153: budget and total
expenditure as 2-decimal currency, plus the category breakdown mapping. -/
def advicePrompt (budget : ℚ) (t : List CatRow) : String :=
  "You are a financial advisor. Based on the following financial data, provide highly specific financial advice:\n"
    ++ "Budget: $" ++ format2 budget ++ "\n"
    ++ "Total Expenditure: $" ++ format2 (total_expenditure t) ++ "\n"
    ++ "Expense Breakdown: " ++ dictRepr (aggregate t) ++ "\n"
    ++ "Provide unique advice that takes into account the user\x27s spending patterns, and provide actionable steps that are tailored to reducing spending where necessary and optimizing their budget."

/-- Embeds `display_financial_advice` (lines 138-161): one request to the service;
on success the trimmed response text is displayed (`.ok`), on exception a
user-visible error message is shown instead (`.error`). Also returns the
prompts sent. -/
def display_financial_advice (svc : Service) (budget : ℚ) (t : List CatRow) :
    Except String String × List String :=
  match svc (advicePrompt budget t) with
  | .ok resp => (.ok (pyStrip resp), [advicePrompt budget t])
  | .error e => (.error ("An error occurred while generating financial advice: " ++ e),
                 [advicePrompt budget t])

/-- Embeds `edited_data.isnull().all().all()` (line 68): every cell of every row
is null. -/
def allNull (rows : List Row) : Bool :=
  rows.all (fun r => r.date.isNone && r.description.isNone && !notnull r.amount)

/-- What the categorize action hands to the presentation layer when it
runs: the categorized table (line 74), the chart summary (line 77) and the
advice outcome (line 80). -/
structure ActionResult where
  categorized : List CatRow
  summary : List (String × ℚ)
  advice : Except String String

/-- The `Categorize Expenses` button handler in `display_table`
(lines 66-84): guard at line 68, then categorize → graphs → advice.
Returns `none` (plus no prompts) when the guard declines with the warning
at line 84; otherwise the produced artifacts and every prompt sent. -/
def display_table_action (svc asvc : Service) (budget : ℚ) (rows : List Row) :
    Option ActionResult × List String :=
  if !rows.isEmpty && !allNull rows then
    (some { categorized := categorize_expenses svc rows
            summary := (display_graphs (categorize_expenses svc rows)).2
            advice := (display_financial_advice asvc budget
                        ((display_graphs (categorize_expenses svc rows)).1)).1 },
     classification_prompts svc rows
       ++ (display_financial_advice asvc budget
            ((display_graphs (categorize_expenses svc rows)).1)).2)
  else
    (none, [])

/-- Column-name normalization in `display_file_uploader` (lines 48-50),
step 1: `data.columns.str.strip().str.lower()`. -/
def stripLower (c : String) : String := pyLower (pyStrip c)

/-- The `column_mapping` dictionary lookup with fall-through
(`column_mapping.get(col, col)`, lines 49-50). -/
def column_mapping (c : String) : String :=
  if c = "date" then "Date"
  else if c = "description" then "Description"
  else if c = "amount" then "Amount"
  else c

/-- The full column-name normalization of `display_file_uploader`
(lines 48-50): strip+lowercase every name, then rename via the alias map. -/
def normalize_columns (cols : List String) : List String :=
  (cols.map stripLower).map column_mapping

/-! Concrete fixtures used by witnesses and counterexamples. -/

/-- A service that answers every prompt with the text " Food ". -/
def svcFood : Service := fun _ => .ok " Food "

/-- A service whose every call raises (message "timeout"). -/
def svcBoom : Service := fun _ => .error "timeout"

/-- A sample numeric row: Coffee, 4.50. -/
def rowCoffee : Row := ⟨some "2024-01-01", some "Coffee", .num (9 / 2)⟩

/-- A sample numeric row: Rent, 1200. -/
def rowRent : Row := ⟨some "2024-01-02", some "Rent", .num 1200⟩

/-- A sample row whose amount is the unparsable token "abc". -/
def rowAbc : Row := ⟨some "2024-01-03", some "Gift", .token "abc"⟩

/-- A fully null row. -/
def rowBlank : Row := ⟨none, none, .missing⟩

/-- A service that classifies the Coffee row and raises on everything
else (message "boom"). -/
def svcSplit : Service := fun p => if p = rowPrompt rowCoffee then .ok "Food" else .error "boom"

/-- A sample categorized table with two categories. -/
def tCat : List CatRow := [⟨rowCoffee, "Food"⟩, ⟨rowRent, "Housing"⟩, ⟨rowAbc, "Food"⟩]

/-- A one-row categorized table whose amount is an unparsable token. -/
def tTok : List CatRow := [⟨⟨none, some "Gift", .token "abc"⟩, "Food"⟩]

/-! Helper lemmas. -/

/-- Every category produced by one run of the per-row loop is a trimmed
service response, an error token, or the literal "Uncategorized". -/
theorem categorizeRow_cases (svc : Service) (r : Row) :
    (categorizeRow svc r).1 = "Uncategorized" ∨
    (∃ resp, svc (rowPrompt r) = .ok resp ∧ (categorizeRow svc r).1 = pyStrip resp) ∨
    (∃ e, svc (rowPrompt r) = .error e ∧ (categorizeRow svc r).1 = "Error: " ++ e) := by
  unfold categorizeRow
  cases hn : notnull r.amount with
  | false => left; simp [hn]
  | true =>
    cases hs : svc (rowPrompt r) with
    | ok resp => right; left; exact ⟨resp, rfl, by simp⟩
    | error e => right; right; exact ⟨e, rfl, by simp⟩

/-- A row with a non-null amount whose call raises gets the error token. -/
theorem categorizeRow_error (svc : Service) (r : Row) (e : String)
    (hn : notnull r.amount = true) (hf : svc (rowPrompt r) = .error e) :
    categorizeRow svc r = ("Error: " ++ e, [rowPrompt r]) := by
  simp [categorizeRow, hn, hf]

/-- A row with a non-null amount whose call succeeds gets the trimmed
response. -/
theorem categorizeRow_ok (svc : Service) (r : Row) (resp : String)
    (hn : notnull r.amount = true) (hs : svc (rowPrompt r) = .ok resp) :
    categorizeRow svc r = (pyStrip resp, [rowPrompt r]) := by
  simp [categorizeRow, hn, hs]

/-! Claim theorems. -/

/-- C1: for every accepted input table, `categorize_expenses` returns a
table with exactly as many rows as the input; the i-th output row is the
i-th input row carrying exactly one category string, which is a trimmed
service response, an error token `Error: <cause>`, or "Uncategorized";
input row order is preserved. -/
theorem C1_row_count_order_single_category (svc : Service) (rows : List Row) :
    (categorize_expenses svc rows).length = rows.length ∧
    (categorize_expenses svc rows).map CatRow.row = rows ∧
    (∀ i, i < rows.length →
      ∃ r : Row, rows[i]? = some r ∧
        (categorize_expenses svc rows)[i]? = some ⟨r, (categorizeRow svc r).1⟩ ∧
        ((categorizeRow svc r).1 = "Uncategorized" ∨
         (∃ resp, svc (rowPrompt r) = .ok resp ∧ (categorizeRow svc r).1 = pyStrip resp) ∨
         (∃ e, svc (rowPrompt r) = .error e ∧ (categorizeRow svc r).1 = "Error: " ++ e))) := by
  refine ⟨by simp [categorize_expenses], ?_, ?_⟩
  · rw [categorize_expenses, List.map_map]
    exact List.map_id rows
  · intro i hi
    have h1 : rows[i]? = some rows[i] := List.getElem?_eq_getElem hi
    refine ⟨rows[i], h1, ?_, categorizeRow_cases svc rows[i]⟩
    simp [categorize_expenses, List.getElem?_map, h1]

/-- C1 witness: instantiation on a one-row table and a service that
answers " Food ". -/
theorem C1_witness :
    ∃ r : Row, ([rowCoffee])[0]? = some r ∧
      (categorize_expenses svcFood [rowCoffee])[0]? = some ⟨r, (categorizeRow svcFood r).1⟩ ∧
      ((categorizeRow svcFood r).1 = "Uncategorized" ∨
       (∃ resp, svcFood (rowPrompt r) = .ok resp ∧ (categorizeRow svcFood r).1 = pyStrip resp) ∨
       (∃ e, svcFood (rowPrompt r) = .error e ∧ (categorizeRow svcFood r).1 = "Error: " ++ e)) :=
  (C1_row_count_order_single_category svcFood [rowCoffee]).2.2 0 (by decide)

/-- C2 counterexample: a row whose amount is the unparsable token "abc" is
NOT categorized "Uncategorized" — `pd.notnull` is true on the string
"abc", so the code sends the row to the service (here answering " Food ",
trimmed to "Food") and one prompt is emitted. -/
theorem C2_counterexample :
    (categorize_expenses svcFood [rowAbc]).map CatRow.category = ["Food"] ∧
    classification_prompts svcFood [rowAbc] = [rowPrompt rowAbc] ∧
    "Food" ≠ "Uncategorized" := by
  refine ⟨by decide, by decide, by decide⟩

/-- C2 (amended): only rows whose amount is genuinely missing (null) are
categorized "Uncategorized" without any service call, regardless of
description content; a row with the non-null unparsable token "abc" is
instead sent to the service, but its amount still coerces to `NaN` and so
contributes 0 to any aggregate sum. -/
theorem C2_missing_amount_uncategorized (svc : Service) (dt ds : Option String) (s : String) :
    categorizeRow svc ⟨dt, ds, .missing⟩ = ("Uncategorized", []) ∧
    (categorizeRow svc ⟨dt, ds, .token s⟩).2 = [rowPrompt ⟨dt, ds, .token s⟩] ∧
    amountOrZero (.token s) = 0 := by
  refine ⟨rfl, ?_, rfl⟩
  unfold categorizeRow
  cases svc (rowPrompt ⟨dt, ds, .token s⟩) <;> simp [notnull]

/-- C5: when the edited table is empty, or every cell of every row is
null, the categorize action declines to run: no service call is made and
no categorized table, summary or advice is produced. -/
theorem C5_empty_or_allnull_noop (svc asvc : Service) (b : ℚ) (rows : List Row)
    (h : rows = [] ∨ allNull rows = true) :
    display_table_action svc asvc b rows = (none, []) := by
  rcases h with rfl | h
  · rfl
  · simp [display_table_action, h]

/-- C5 witness: a table holding one fully null row is declined. -/
theorem C5_witness : display_table_action svcFood svcFood 500 [rowBlank] = (none, []) :=
  C5_empty_or_allnull_noop svcFood svcFood 500 [rowBlank] (Or.inr (by decide))

/-- C9 counterexample: an unmapped column name is NOT passed through
unchanged — the code overwrites all column names with their
stripped+lower-cased form before renaming, so "Memo" comes out "memo". -/
theorem C9_counterexample :
    normalize_columns ["Memo"] = ["memo"] ∧ "memo" ≠ "Memo" := by
  refine ⟨by decide, by decide⟩

/-- C9 (amended): the normalizer strips and lower-cases every column name
(not just for matching — the lower-cased names are kept), maps the
aliases date, description, amount to the canonical Date, Description,
Amount, and passes every unmapped name through in its stripped
lower-cased form. -/
theorem C9_strip_lower_then_alias (cols : List String) :
    normalize_columns cols = cols.map (fun c => column_mapping (stripLower c)) ∧
    column_mapping "date" = "Date" ∧
    column_mapping "description" = "Description" ∧
    column_mapping "amount" = "Amount" ∧
    (∀ c, c ≠ "date" → c ≠ "description" → c ≠ "amount" → column_mapping c = c) := by
  refine ⟨by simp [normalize_columns, List.map_map], rfl, rfl, rfl, ?_⟩
  intro c h1 h2 h3
  simp [column_mapping, h1, h2, h3]

/-- C9 witness: the unmapped name "memo" survives the alias map, and a
mixed table normalizes as amended. -/
theorem C9_witness :
    column_mapping "memo" = "memo" ∧
    normalize_columns [" Date ", "Memo"] = ["Date", "memo"] := by
  refine ⟨(C9_strip_lower_then_alias []).2.2.2.2 "memo" (by decide) (by decide) (by decide), by decide⟩

/-- C10: the categorized table (and the chart summary) produced by the
categorize action does not depend on the budget value: two runs on the
same input with the same services but different budgets yield identical
categorized tables and summaries — the budget only enters the advice
prompt. -/
theorem C10_budget_noninterference (svc asvc : Service) (b1 b2 : ℚ) (rows : List Row) :
    ((display_table_action svc asvc b1 rows).1.map ActionResult.categorized =
      (display_table_action svc asvc b2 rows).1.map ActionResult.categorized) ∧
    ((display_table_action svc asvc b1 rows).1.map ActionResult.summary =
      (display_table_action svc asvc b2 rows).1.map ActionResult.summary) := by
  by_cases h : (!rows.isEmpty && !allNull rows) = true <;>
    constructor <;> simp [display_table_action, h]

/-- C3: when the classification call for one row raises, that row gets
the descriptive token `Error: <cause>`, the table-level operation still
completes (same length), every other row keeps the category its own call
produced, and the error token is an ordinary group key of the aggregation
over the full table — failure isolation is per-row. -/
theorem C3_per_row_error_isolation (svc : Service) (rows : List Row) (j : ℕ) (r : Row)
    (e : String) (hj : rows[j]? = some r) (hn : notnull r.amount = true)
    (hf : svc (rowPrompt r) = .error e) :
    (categorize_expenses svc rows).length = rows.length ∧
    (categorize_expenses svc rows)[j]? = some ⟨r, "Error: " ++ e⟩ ∧
    (∀ i, i ≠ j → (categorize_expenses svc rows)[i]? =
      (rows[i]?).map (fun r2 => ⟨r2, (categorizeRow svc r2).1⟩)) ∧
    ("Error: " ++ e) ∈ groupKeys (categorize_expenses svc rows) := by
  have hcat : (categorizeRow svc r).1 = "Error: " ++ e := by
    rw [categorizeRow_error svc r e hn hf]
  refine ⟨by simp [categorize_expenses], ?_, ?_, ?_⟩
  · simp [categorize_expenses, List.getElem?_map, hj, hcat]
  · intro i _
    simp [categorize_expenses, List.getElem?_map]
  · have hmem : (⟨r, "Error: " ++ e⟩ : CatRow) ∈ categorize_expenses svc rows := by
      have : (⟨r, (categorizeRow svc r).1⟩ : CatRow) ∈ categorize_expenses svc rows :=
        List.mem_map_of_mem _ (List.getElem?_mem hj)
      rwa [hcat] at this
    exact List.mem_dedup.mpr (List.mem_map_of_mem CatRow.category hmem)

/-- C3 witness: on a two-row table where the service classifies Coffee as
Food but raises "boom" on Rent, only the Rent row carries the error token
and the token is a group key. -/
theorem C3_witness :
    (categorize_expenses svcSplit [rowCoffee, rowRent]).length = 2 ∧
    (categorize_expenses svcSplit [rowCoffee, rowRent])[1]? = some ⟨rowRent, "Error: " ++ "boom"⟩ ∧
    (categorize_expenses svcSplit [rowCoffee, rowRent])[0]? =
      some ⟨rowCoffee, (categorizeRow svcSplit rowCoffee).1⟩ ∧
    ("Error: " ++ "boom") ∈ groupKeys (categorize_expenses svcSplit [rowCoffee, rowRent]) := by
  have hf : svcSplit (rowPrompt rowRent) = .error "boom" := by
    unfold svcSplit
    rw [if_neg (by decide)]
  have h := C3_per_row_error_isolation svcSplit [rowCoffee, rowRent] 1 rowRent "boom"
    (by decide) (by decide) hf
  exact ⟨h.1, h.2.1, by simpa using h.2.2.1 0 (by decide), h.2.2.2⟩

/-- C6: for every row with a non-null amount, exactly one classification
request is sent (no retries); the prompt embeds the row description
(default empty string when absent) and the raw amount; and when the call
succeeds the category is exactly the response text with surrounding
whitespace stripped. -/
theorem C6_one_call_prompt_and_trim (svc : Service) (r : Row)
    (hn : notnull r.amount = true) :
    (categorizeRow svc r).2 = [rowPrompt r] ∧
    (∃ pre post, rowPrompt r = pre ++ r.description.getD "" ++ post) ∧
    (∃ pre post, rowPrompt r = pre ++ amountRepr r.amount ++ post) ∧
    (∀ resp, svc (rowPrompt r) = .ok resp → (categorizeRow svc r).1 = pyStrip resp) := by
  refine ⟨?_, ?_, ?_, ?_⟩
  · unfold categorizeRow
    cases svc (rowPrompt r) <;> simp [hn]
  · exact ⟨"Categorize the following expense: Description: \x27",
      "\x27, Amount: \x27" ++ amountRepr r.amount ++ "\x27",
      by simp [rowPrompt, String.append_assoc]⟩
  · exact ⟨"Categorize the following expense: Description: \x27" ++ r.description.getD ""
        ++ "\x27, Amount: \x27", "\x27",
      by simp [rowPrompt, String.append_assoc]⟩
  · intro resp hs
    rw [categorizeRow_ok svc r resp hn hs]

/-- C6 witness: instantiation on the Coffee row and the service answering
" Food ", whose trimmed response is "Food". -/
theorem C6_witness :
    (categorizeRow svcFood rowCoffee).1 = "Food" ∧
    (categorizeRow svcFood rowCoffee).2 = [rowPrompt rowCoffee] := by
  have h := C6_one_call_prompt_and_trim svcFood rowCoffee (by decide)
  exact ⟨(h.2.2.2 " Food " rfl).trans (by decide), h.1⟩

/-- C7: the Advice Generator sends exactly one request per run; its single
prompt embeds the budget as 2-decimal currency, the total expenditure as
2-decimal currency, and the full category-to-amount mapping; on success it
yields the response text stripped of surrounding whitespace, verbatim. -/
theorem C7_advice_single_request (svc : Service) (b : ℚ) (t : List CatRow) :
    (display_financial_advice svc b t).2 = [advicePrompt b t] ∧
    (∃ pre post, advicePrompt b t = pre ++ format2 b ++ post) ∧
    (∃ pre post, advicePrompt b t = pre ++ format2 (total_expenditure t) ++ post) ∧
    (∃ pre post, advicePrompt b t = pre ++ dictRepr (aggregate t) ++ post) ∧
    (∀ resp, svc (advicePrompt b t) = .ok resp →
      (display_financial_advice svc b t).1 = .ok (pyStrip resp)) := by
  refine ⟨?_, ?_, ?_, ?_, ?_⟩
  · unfold display_financial_advice
    cases svc (advicePrompt b t) <;> simp
  · exact ⟨"You are a financial advisor. Based on the following financial data, provide highly specific financial advice:\n"
        ++ "Budget: $",
      "\n" ++ "Total Expenditure: $" ++ format2 (total_expenditure t) ++ "\n"
        ++ "Expense Breakdown: " ++ dictRepr (aggregate t) ++ "\n"
        ++ "Provide unique advice that takes into account the user\x27s spending patterns, and provide actionable steps that are tailored to reducing spending where necessary and optimizing their budget.",
      by simp [advicePrompt, String.append_assoc]⟩
  · exact ⟨"You are a financial advisor. Based on the following financial data, provide highly specific financial advice:\n"
        ++ "Budget: $" ++ format2 b ++ "\n" ++ "Total Expenditure: $",
      "\n" ++ "Expense Breakdown: " ++ dictRepr (aggregate t) ++ "\n"
        ++ "Provide unique advice that takes into account the user\x27s spending patterns, and provide actionable steps that are tailored to reducing spending where necessary and optimizing their budget.",
      by simp [advicePrompt, String.append_assoc]⟩
  · exact ⟨"You are a financial advisor. Based on the following financial data, provide highly specific financial advice:\n"
        ++ "Budget: $" ++ format2 b ++ "\n" ++ "Total Expenditure: $"
        ++ format2 (total_expenditure t) ++ "\n" ++ "Expense Breakdown: ",
      "\n" ++ "Provide unique advice that takes into account the user\x27s spending patterns, and provide actionable steps that are tailored to reducing spending where necessary and optimizing their budget.",
      by simp [advicePrompt, String.append_assoc]⟩
  · intro resp hs
    simp [display_financial_advice, hs]

/-- C7 witness: instantiation on the two-category table with budget 500
and the service answering " Food ". -/
theorem C7_witness :
    (display_financial_advice svcFood 500 tCat).2 = [advicePrompt 500 tCat] ∧
    (display_financial_advice svcFood 500 tCat).1 = .ok "Food" := by
  have h := C7_advice_single_request svcFood 500 tCat
  have hp : pyStrip " Food " = "Food" := by decide
  refine ⟨h.1, (h.2.2.2.2 " Food " rfl).trans ?_⟩
  rw [hp]

/-! Sum and coercion helper lemmas for the aggregator claims. -/

/-- Summing a pointwise sum of two functions over a list splits. -/
theorem sum_map_add_split {α : Type} (l : List α) (f g : α → ℚ) :
    (l.map (fun x => f x + g x)).sum = (l.map f).sum + (l.map g).sum := by
  induction l with
  | nil => simp
  | cons x xs ih => simp [ih]; ring

/-- An indicator summed over keys not containing the tag vanishes. -/
theorem sum_map_ite_not_mem (ks : List String) (c : String) (v : ℚ) (hc : c ∉ ks) :
    (ks.map (fun k => if c = k then v else 0)).sum = 0 := by
  induction ks with
  | nil => simp
  | cons k ks ih =>
    have h1 : c ≠ k := fun h => hc (h ▸ List.mem_cons_self k ks)
    have h2 : c ∉ ks := fun h => hc (List.mem_cons_of_mem _ h)
    simp [h1, ih h2]

/-- An indicator summed over duplicate-free keys containing the tag picks
out the value once. -/
theorem sum_map_ite_mem (ks : List String) (hnd : ks.Nodup) (c : String) (v : ℚ)
    (hc : c ∈ ks) :
    (ks.map (fun k => if c = k then v else 0)).sum = v := by
  induction ks with
  | nil => cases hc
  | cons k ks ih =>
    rcases List.mem_cons.mp hc with h | h
    · subst h
      have hnm : c ∉ ks := (List.nodup_cons.mp hnd).1
      simp [sum_map_ite_not_mem ks c v hnm]
    · have hne : c ≠ k := by
        rintro rfl
        exact (List.nodup_cons.mp hnd).1 h
      simp [hne, ih (List.nodup_cons.mp hnd).2 h]

/-- Unfolding the group sum over a cons cell. -/
theorem groupSum_cons (x : CatRow) (t : List CatRow) (k : String) :
    groupSum (x :: t) k =
      (if x.category = k then amountOrZero x.row.amount else 0) + groupSum t k := by
  by_cases h : x.category = k
  · simp [groupSum, List.filter_cons, h]
  · simp [groupSum, List.filter_cons, h]

/-- Grouped sums over a duplicate-free covering key list add up to the
total expenditure. -/
theorem keys_sum_eq_total (t : List CatRow) (ks : List String) (hnd : ks.Nodup)
    (hcov : ∀ c ∈ t, c.category ∈ ks) :
    (ks.map (fun k => groupSum t k)).sum = total_expenditure t := by
  induction t with
  | nil =>
    have h0 : ∀ k : String, groupSum [] k = 0 := fun _ => rfl
    simp [h0, total_expenditure]
  | cons x xs ih =>
    have hx : x.category ∈ ks := hcov x (List.mem_cons_self x xs)
    have hxs : ∀ c ∈ xs, c.category ∈ ks := fun c hc => hcov c (List.mem_cons_of_mem _ hc)
    calc (ks.map (fun k => groupSum (x :: xs) k)).sum
        = (ks.map (fun k =>
            (if x.category = k then amountOrZero x.row.amount else 0) + groupSum xs k)).sum := by
          simp only [groupSum_cons]
      _ = (ks.map (fun k => if x.category = k then amountOrZero x.row.amount else 0)).sum
            + (ks.map (fun k => groupSum xs k)).sum := sum_map_add_split ks _ _
      _ = amountOrZero x.row.amount + total_expenditure xs := by
          rw [sum_map_ite_mem ks hnd _ _ hx, ih hxs]
      _ = total_expenditure (x :: xs) := by simp [total_expenditure]

/-- The value column of the aggregated summary sums to the total
expenditure. -/
theorem aggregate_snd_sum (t : List CatRow) :
    ((aggregate t).map Prod.snd).sum = total_expenditure t := by
  have h : (aggregate t).map Prod.snd = (groupKeys t).map (fun k => groupSum t k) := by
    simp [aggregate, List.map_map]
  rw [h]
  exact keys_sum_eq_total t (groupKeys t) (List.nodup_dedup _)
    (fun c hc => List.mem_dedup.mpr (List.mem_map_of_mem _ hc))

/-- Numeric coercion leaves the summation value of a cell unchanged. -/
theorem amountOrZero_coerceRow (r : Row) :
    amountOrZero (coerceRow r).amount = amountOrZero r.amount := by
  cases r with
  | mk d ds a => cases a <;> rfl

/-- Numeric coercion is idempotent on a row. -/
theorem coerceRow_idem (r : Row) : coerceRow (coerceRow r) = coerceRow r := by
  cases r with
  | mk d ds a => cases a <;> rfl

/-- Numeric coercion is idempotent on a table. -/
theorem coerce_amounts_idem (t : List CatRow) :
    coerce_amounts (coerce_amounts t) = coerce_amounts t := by
  unfold coerce_amounts
  rw [List.map_map]
  congr 1
  funext c
  simp [Function.comp, coerceRow_idem]

/-- Numeric coercion does not change the total expenditure. -/
theorem total_expenditure_coerce (t : List CatRow) :
    total_expenditure (coerce_amounts t) = total_expenditure t := by
  unfold total_expenditure coerce_amounts
  rw [List.map_map]
  exact congrArg List.sum (List.map_congr_left (fun c _ => amountOrZero_coerceRow c.row))

/-- Numeric coercion does not change the group keys. -/
theorem groupKeys_coerce (t : List CatRow) :
    groupKeys (coerce_amounts t) = groupKeys t := by
  unfold groupKeys coerce_amounts
  rw [List.map_map]
  exact congrArg List.dedup (List.map_congr_left (fun c _ => rfl))

/-- Numeric coercion does not change any group sum. -/
theorem groupSum_coerce (t : List CatRow) (k : String) :
    groupSum (coerce_amounts t) k = groupSum t k := by
  induction t with
  | nil => rfl
  | cons x xs ih =>
    have hc : coerce_amounts (x :: xs) = { x with row := coerceRow x.row } :: coerce_amounts xs := rfl
    rw [hc, groupSum_cons, groupSum_cons, ih, amountOrZero_coerceRow]

/-- Numeric coercion does not change the aggregated summary. -/
theorem aggregate_coerce (t : List CatRow) :
    aggregate (coerce_amounts t) = aggregate t := by
  unfold aggregate
  rw [groupKeys_coerce]
  congr 1
  funext k
  rw [groupSum_coerce]

/-- C4: every distinct category string (error tokens and "Uncategorized"
included) appears exactly once as a key of the aggregated summary; the
value at a key is the sum of the (coerced, unparsable-as-0) amounts of
exactly the rows whose category equals that key; the values sum to the
total expenditure; and the total the Advice Generator uses (computed on
the coerced table the charts leave behind) is that same number. -/
theorem C4_aggregate_sums (t : List CatRow) :
    (groupKeys t).Nodup ∧
    (∀ k, k ∈ groupKeys t ↔ k ∈ t.map CatRow.category) ∧
    (∀ k v, (k, v) ∈ aggregate t →
      v = ((t.filter (fun c => c.category = k)).map (fun c => amountOrZero c.row.amount)).sum) ∧
    ((aggregate t).map Prod.snd).sum = total_expenditure t ∧
    total_expenditure ((display_graphs t).1) = total_expenditure t := by
  refine ⟨List.nodup_dedup _, ?_, ?_, aggregate_snd_sum t, total_expenditure_coerce t⟩
  · intro k
    exact List.mem_dedup
  · intro k v hkv
    rcases List.mem_map.mp hkv with ⟨k2, _, heq⟩
    obtain ⟨rfl, rfl⟩ : k2 = k ∧ groupSum t k2 = v := by
      constructor
      · exact congrArg Prod.fst heq
      · exact congrArg Prod.snd heq
    rfl

/-- C4 witness: on the sample table, the Food key sums Coffee (4.50) and
the unparsable Gift row (0). -/
theorem C4_witness :
    (9 / 2 : ℚ) =
      ((tCat.filter (fun c => c.category = "Food")).map (fun c => amountOrZero c.row.amount)).sum := by
  have hk : "Food" ∈ groupKeys tCat := by simp [groupKeys, tCat]
  have hm := List.mem_map_of_mem (fun k => (k, groupSum tCat k)) hk
  have hs : groupSum tCat "Food" = 9 / 2 := by
    simp [groupSum, tCat, rowCoffee, rowRent, rowAbc, amountOrZero, coerceAmount]
  simp only [hs] at hm
  exact (C4_aggregate_sums tCat).2.2.1 "Food" (9 / 2) hm

/-- C8 counterexample: `display_graphs` is not side-effect-free on the
table it is given — the in-place numeric coercion of line 110 rewrites an
unparsable amount cell to missing, so the table it leaves behind differs
from its input. -/
theorem C8_counterexample : (display_graphs tTok).1 ≠ tTok := by decide

/-- C8 (amended): `display_graphs` does mutate the given table (it
overwrites the amount column with its numeric coercion), but it is a
deterministic function of its input, its summary equals the aggregation
of the original table (the coercion changes no group key and no group
sum), and re-running it on the table it produced yields the identical
table and summary. -/
theorem C8_deterministic_idempotent (t : List CatRow) :
    (display_graphs t).2 = aggregate t ∧
    display_graphs ((display_graphs t).1) = display_graphs t ∧
    total_expenditure ((display_graphs t).1) = total_expenditure t := by
  refine ⟨aggregate_coerce t, ?_, total_expenditure_coerce t⟩
  simp [display_graphs, coerce_amounts_idem]

end ExpenseClassifier
